import Mathlib

/-!
# Verification of the governance subsystem

A shallow embedding, in Lean 4, of the guard scripts and the decision-trace
store of this repository, together with theorems settling the spec's claims
about them.

Embedded sources:

* `.agent/skills/global-hook-setup/templates/verify-state-transition.py`
  (the state-machine guard, "StateGuard");
* `.windsurf/skills/enforcement/scripts/require-commit-before-tested.py`
  (the git-hygiene guard);
* `.agents/skills/context-graph/scripts/store-trace.py` (the trace store);
* `.agents/skills/context-graph/scripts/init-db.py` (collection creation);
* `.windsurf/skills/context-graph/scripts/query-traces.py` (trace query).

Python values decoded from JSON are modelled by the inductive type `Json`
(numbers as exact rationals; the scripts never do float arithmetic on
decoded values, only equality tests and truthiness).  The Python runtime
behaviours the scripts rely on are modelled explicitly: `dict.get` with a
default (an `AttributeError` on a non-dict receiver is a crash), truthiness,
the substring operator `in`, and uncaught exceptions as a distinguished
`crash` outcome (process exit code 1, distinct from allow = 0 and
block = 2).  `json.load` / `json.loads` and the filesystem are external to
the scripts and appear as oracle parameters.
-/

/-- A decoded JSON value (the result of a successful `json.loads`).  An
`obj` models a Python dict produced by the JSON decoder, so its field
list has pairwise-distinct keys. -/
inductive Json where
  | null : Json
  | bool (b : Bool) : Json
  | num (q : ℚ) : Json
  | str (s : String) : Json
  | arr (elems : List Json) : Json
  | obj (fields : List (String × Json)) : Json

/-- `dict.get(key, default)` on a decoded JSON object field list. -/
def objGet (fields : List (String × Json)) (key : String) (dflt : Json) : Json :=
  match fields.lookup key with
  | some v => v
  | none => dflt

/-- Python truthiness of a decoded JSON value (`if x:`). -/
def Json.truthy : Json → Bool
  | .null => false
  | .bool b => b
  | .num q => q != 0
  | .str s => s != ""
  | .arr l => !l.isEmpty
  | .obj l => !l.isEmpty

/-- Python `==` on decoded JSON values.  `True == 1` and `1 == 1.0` hold in
Python (bool is an int subclass, and numbers compare by value), which the
rational `num` payload and the bool/num cases reproduce.  Dicts compare by
key set and per-key value, independent of field order. -/
def pyEq : Json → Json → Bool
  | .null, .null => true
  | .bool a, .bool b => a == b
  | .bool a, .num n => (if a then (1 : ℚ) else 0) == n
  | .num n, .bool a => n == (if a then (1 : ℚ) else 0)
  | .num m, .num n => m == n
  | .str s, .str t => s == t
  | .arr xs, .arr ys => pyEqList xs ys
  | .obj xs, .obj ys => xs.length == ys.length && pyEqFields xs ys
  | _, _ => false
where
  pyEqList : List Json → List Json → Bool
    | [], [] => true
    | x :: xs, y :: ys => pyEq x y && pyEqList xs ys
    | _, _ => false
  pyEqFields : List (String × Json) → List (String × Json) → Bool
    | [], _ => true
    | (k, v) :: rest, ys =>
      (match ys.lookup k with
       | some w => pyEq v w
       | none => false) && pyEqFields rest ys

/-- Does `needle` occur starting at some position of the character list? -/
def strContainsAux (needle : List Char) : List Char → Bool
  | [] => needle.isEmpty
  | c :: rest => needle.isPrefixOf (c :: rest) || strContainsAux needle rest

/-- Python's `needle in haystack` on strings: substring containment. -/
def strContains (haystack needle : String) : Bool :=
  strContainsAux needle.data haystack.data

/-- Python `x or y` on decoded JSON values. -/
def pyOr (x y : Json) : Json := if x.truthy then x else y

/-- Python `needle in haystack` for a decoded value: substring containment
on a string, element membership (via `==`) on a list, key membership on a
dict — none of which raise — and `TypeError` (not iterable) on every other
shape. -/
def pyIn (needle : String) : Json → Except Unit Bool
  | .str h => .ok (strContains h needle)
  | .arr l => .ok (l.any (fun e => pyEq e (.str needle)))
  | .obj fields => .ok (fields.any (fun kv => kv.1 == needle))
  | _ => .error ()

/-- Is the decoded value usable as a Python dict key?  Lists and dicts are
unhashable: `dict.get` raises `TypeError` on them; `None`, booleans,
numbers and strings hash fine. -/
def Json.hashable : Json → Bool
  | .arr _ => false
  | .obj _ => false
  | _ => true

/-- Outcome of reading a JSON file: the file is missing
(`FileNotFoundError`), present but not decodable JSON
(`json.JSONDecodeError`), or decodes to a value. -/
inductive FileReadResult where
  | missing : FileReadResult
  | undecodable : FileReadResult
  | ok (j : Json) : FileReadResult

/-!
## StateGuard — `verify-state-transition.py`
-/

/-- `VALID_TRANSITIONS` of `verify-state-transition.py`, lines 26-33. -/
def VALID_TRANSITIONS : List (String × List String) :=
  [("START", ["INIT", "IMPLEMENT"]),
   ("FIX_BROKEN", ["INIT"]),
   ("INIT", ["IMPLEMENT"]),
   ("IMPLEMENT", ["TEST"]),
   ("TEST", ["IMPLEMENT", "COMPLETE"]),
   ("COMPLETE", [])]

/-- `VALID_TRANSITIONS.get(current_state, [])` on a *hashable* key: a
defaulted lookup — a hashable non-string key (`None`, a boolean, a
number), or a string outside the table, finds nothing and yields `[]`.
On an unhashable key (a list or dict) Python's `dict.get` instead raises
`TypeError`; `verifyStateTransition` crashes on that path before
consulting this function, so the catch-all branch is never reached from
the embedding at a list or dict. -/
def validTransitionsGet : Json → List String
  | .str s => (VALID_TRANSITIONS.lookup s).getD []
  | _ => []

/-- Python `x in l` for a JSON value against a list of Python strings
(list membership uses `==`, so only a string value can be a member). -/
def jsonMemStrList (j : Json) (l : List String) : Bool :=
  match j with
  | .str s => l.contains s
  | _ => false

/-- The verdict of one run of `verify-state-transition.py`.  `allow` is
`sys.exit(0)`; `block` is `sys.exit(2)` after printing
`BLOCKED: Invalid state transition \x7bcurrent_state\x7d → \x7bnew_state\x7d` and
`Valid transitions from \x7bcurrent_state\x7d: \x7bvalid_next\x7d` — the three
interpolated values are carried structurally; `crash` is an uncaught
exception (exit code 1). -/
inductive StateGuardResult where
  | allow : StateGuardResult
  | block (current attempted : Json) (validNext : List String) : StateGuardResult
  | crash : StateGuardResult

/-- `main` of `verify-state-transition.py`.  `stdin` is the result of
`json.load(sys.stdin)` (`.error` = `JSONDecodeError`, which the script
catches and allows); `loads` is the `json.loads` oracle for the written
content; `readFile` is the combined `open` + `json.load` oracle for the
current state file.  The modelled Python behaviours: `.get` on a non-dict
raises `AttributeError` (crash); the `state.json` test on `file_path` is
`in` — substring on a string, membership on a list or dict, `TypeError`
(crash) otherwise; `json.loads` applied to a truthy non-string raises
`TypeError` (crash); `open` on a non-string path raises `TypeError`
(crash); `dict.get` on an unhashable `current_state` (list/dict) raises
`TypeError` (crash) — none of these are caught by
`except (json.JSONDecodeError, KeyError)` or
`except (FileNotFoundError, json.JSONDecodeError)`.  A `sys.exit` inside
the `try` block is likewise not caught. -/
def verifyStateTransition (stdin : Except Unit Json)
    (loads : String → Except Unit Json)
    (readFile : String → FileReadResult) : StateGuardResult :=
  match stdin with
  | .error _ => .allow
  | .ok inputData =>
    match inputData with
    | .obj inFs =>
      match objGet inFs "tool_input" (.obj []) with
      | .obj tiFs =>
        let filePathJ := objGet tiFs "file_path" (.str "")
        match pyIn "state.json" filePathJ with
        | .error _ => .crash
        | .ok false => .allow
        | .ok true =>
          let c1 := objGet tiFs "content" (.str "")
          let content := if c1.truthy then c1 else objGet tiFs "new_string" (.str "")
          let newStateData : Except StateGuardResult Json :=
            if content.truthy = false then .ok (.obj [])
            else
              match content with
              | .str s =>
                match loads s with
                | .ok j => .ok j
                | .error _ => .error .allow
              | _ => .error .crash
          match newStateData with
          | .error r => r
          | .ok nsd =>
            match nsd with
            | .obj nsFs =>
              let newState := objGet nsFs "state" (.str "")
              let currentRes : Except StateGuardResult Json :=
                match filePathJ with
                | .str filePath =>
                  match readFile filePath with
                  | .missing => .ok (.str "START")
                  | .undecodable => .ok (.str "START")
                  | .ok (.obj cdFs) => .ok (objGet cdFs "state" (.str "START"))
                  | .ok _ => .error .crash
                | _ => .error .crash
              match currentRes with
              | .error r => r
              | .ok currentState =>
                if pyEq currentState newState then .allow
                else if currentState.hashable = false then .crash
                else
                  let validNext := validTransitionsGet currentState
                  if jsonMemStrList newState validNext = false then
                    .block currentState newState validNext
                  else .allow
            | _ => .crash
      | _ => .crash
    | _ => .crash

/-- A well-formed hook event writing `contentStr` to the project state
file, as the harness delivers it on stdin. -/
def stateWriteEvent (contentStr : String) : Json :=
  .obj [("tool_input",
    .obj [("file_path", .str ".claude/progress/state.json"),
          ("content", .str contentStr)])]

/-- A `json.loads` oracle returning a fixed decoded value. -/
def constLoads (j : Json) : String → Except Unit Json := fun _ => .ok j

/-- A `json.loads` oracle that always fails to decode. -/
def failLoads : String → Except Unit Json := fun _ => .error ()

/-- A file-read oracle returning a fixed outcome for every path. -/
def constRead (r : FileReadResult) : String → FileReadResult := fun _ => r

/-!
## GitHygieneGuard — `require-commit-before-tested.py`
-/

/-- Python whitespace for `str.strip()`: every code point with
`str.isspace()` — the ASCII whitespace, the C1 separators `\x1c`-`\x1f`,
NEL, NBSP, and the Unicode space separators. -/
def isPySpace (c : Char) : Bool :=
  [' ', '\t', '\n', '\r', '\x0b', '\x0c'].contains c ||
  (28 ≤ c.toNat && c.toNat ≤ 31) || c.toNat == 133 || c.toNat == 160 ||
  c.toNat == 5760 || (8192 ≤ c.toNat && c.toNat ≤ 8202) ||
  c.toNat == 8232 || c.toNat == 8233 || c.toNat == 8239 ||
  c.toNat == 8287 || c.toNat == 12288

/-- Python `str.strip()`. -/
def pyStrip (s : String) : String :=
  String.mk (((s.data.dropWhile isPySpace).reverse.dropWhile isPySpace).reverse)

/-- `has_uncommitted_changes` (lines 17-28): runs `git status --porcelain`
and reports whether its stripped stdout is nonempty; any exception from the
subprocess (git missing, timeout, …) is caught and yields `false`.  The
subprocess is external and appears as `git`, the stdout text or an
exception. -/
def hasUncommittedChanges (git : Except Unit String) : Bool :=
  match git with
  | .ok out => pyStrip out != ""
  | .error _ => false

/-- The fixed block diagnostic of lines 61-64 — note it names no offending
path. -/
def requireCommitBlockMsgs : List String :=
  ["BLOCKED: Cannot mark feature as tested with uncommitted changes",
   "",
   "Run: .skills/implementation/scripts/feature-commit.sh <feature-id>",
   "Then retry marking the feature as tested."]

/-- Verdict of one run of `require-commit-before-tested.py`: `allow`
(exit 0, carrying the ids of features warned about for a missing commit
hash), `block` (exit 2 with the printed lines), or `crash` (uncaught
exception, exit 1). -/
inductive HookResult where
  | allow (warnedIds : List Json) : HookResult
  | block (msgs : List String) : HookResult
  | crash : HookResult

/-- The warning loop of lines 70-78: each decoded feature must be a dict
(otherwise `feature.get` raises); a feature with `status == "tested"` and a
falsy `last_commit` is warned about by its id. -/
def warnedFeatureIds : List Json → Except Unit (List Json)
  | [] => .ok []
  | .obj f :: rest =>
    let w := if pyEq (objGet f "status" .null) (.str "tested")
                && !(objGet f "last_commit" (.str "")).truthy
             then [objGet f "id" (.str "")] else []
    match warnedFeatureIds rest with
    | .ok ws => .ok (w ++ ws)
    | .error e => .error e
  | _ :: _ => .error ()

/-- `main` of `require-commit-before-tested.py`.  The stdin `json.load` is
not wrapped in a `try`, so an undecodable stdin is an uncaught exception.
Only writes to a path containing `feature-list.json` (Python `in`:
substring, list/dict membership, or `TypeError`) whose content contains
`"status": "tested"` (with or without the space; the second test is only
evaluated when the first finds nothing) are checked; a dirty tree then
blocks with the fixed message, otherwise the content is re-decoded —
decode failure is caught (allow), but `json.loads` of a non-string content
and `.get` on a decoded non-dict raise (crash) — and missing-commit
warnings are emitted.  Iterating a non-list `features` value only raises
once an element is reached, so an empty string or empty dict iterates zero
times. -/
def requireCommitBeforeTested (stdin : Except Unit Json)
    (loads : String → Except Unit Json) (git : Except Unit String) : HookResult :=
  match stdin with
  | .error _ => .crash
  | .ok inputData =>
    match inputData with
    | .obj inFs =>
      match objGet inFs "tool_input" (.obj []) with
      | .obj tiFs =>
        let filePathJ := objGet tiFs "file_path" (.str "")
        let contentJ := objGet tiFs "content" (.str "")
        match pyIn "feature-list.json" filePathJ with
        | .error _ => .crash
        | .ok false => .allow []
        | .ok true =>
          let afterTrigger : HookResult :=
            if hasUncommittedChanges git then .block requireCommitBlockMsgs
            else
              match contentJ with
              | .str content =>
                match loads content with
                | .error _ => .allow []
                | .ok nd =>
                  match nd with
                  | .obj ndFs =>
                    match objGet ndFs "features" (.arr []) with
                    | .arr fl =>
                      match warnedFeatureIds fl with
                      | .ok ws => .allow ws
                      | .error _ => .crash
                    | .str s => if s = "" then .allow [] else .crash
                    | .obj l => if l.isEmpty then .allow [] else .crash
                    | _ => .crash
                  | _ => .crash
              | _ => .crash
          match pyIn "\"status\": \"tested\"" contentJ with
          | .error _ => .crash
          | .ok true => afterTrigger
          | .ok false =>
            match pyIn "\"status\":\"tested\"" contentJ with
            | .error _ => .crash
            | .ok false => .allow []
            | .ok true => afterTrigger
      | _ => .crash
    | _ => .crash

/-!
## SHA-256 (`hashlib.sha256`)

A byte-level embedding of the standard SHA-256 digest over `Nat`, used by
`store-trace.py` line 114 to derive trace ids.  Words are naturals reduced
mod `2^32`.
-/

/-- Truncation to a 32-bit word. -/
def w32 (n : Nat) : Nat := n % 4294967296

/-- Right rotation of a 32-bit word. -/
def rotr32 (x n : Nat) : Nat := w32 ((x >>> n) ||| (x <<< (32 - n)))

/-- SHA-256 Σ₀. -/
def sha2Sum0 (x : Nat) : Nat := rotr32 x 2 ^^^ rotr32 x 13 ^^^ rotr32 x 22

/-- SHA-256 Σ₁. -/
def sha2Sum1 (x : Nat) : Nat := rotr32 x 6 ^^^ rotr32 x 11 ^^^ rotr32 x 25

/-- SHA-256 σ₀. -/
def sha2Sig0 (x : Nat) : Nat := rotr32 x 7 ^^^ rotr32 x 18 ^^^ (x >>> 3)

/-- SHA-256 σ₁. -/
def sha2Sig1 (x : Nat) : Nat := rotr32 x 17 ^^^ rotr32 x 19 ^^^ (x >>> 10)

/-- SHA-256 choice function (the complement is xor against the 32-bit
mask). -/
def chFn (x y z : Nat) : Nat := (x &&& y) ^^^ ((x ^^^ 4294967295) &&& z)

/-- SHA-256 majority function. -/
def majFn (x y z : Nat) : Nat := (x &&& y) ^^^ (x &&& z) ^^^ (y &&& z)

/-- The 64 SHA-256 round constants. -/
def sha256K : List Nat :=
  [1116352408, 1899447441, 3049323471, 3921009573, 961987163, 1508970993,
   2453635748, 2870763221, 3624381080, 310598401, 607225278, 1426881987,
   1925078388, 2162078206, 2614888103, 3248222580, 3835390401, 4022224774,
   264347078, 604807628, 770255983, 1249150122, 1555081692, 1996064986,
   2554220882, 2821834349, 2952996808, 3210313671, 3336571891, 3584528711,
   113926993, 338241895, 666307205, 773529912, 1294757372, 1396182291,
   1695183700, 1986661051, 2177026350, 2456956037, 2730485921, 2820302411,
   3259730800, 3345764771, 3516065817, 3600352804, 4094571909, 275423344,
   430227734, 506948616, 659060556, 883997877, 958139571, 1322822218,
   1537002063, 1747873779, 1955562222, 2024104815, 2227730452, 2361852424,
   2428436474, 2756734187, 3204031479, 3329325298]

/-- The eight SHA-256 working registers. -/
structure Sha256Regs where
  r0 : Nat
  r1 : Nat
  r2 : Nat
  r3 : Nat
  r4 : Nat
  r5 : Nat
  r6 : Nat
  r7 : Nat

/-- The SHA-256 initial hash value. -/
def sha256Start : Sha256Regs :=
  ⟨1779033703, 3144134277, 1013904242, 2773480762,
   1359893119, 2600822924, 528734635, 1541459225⟩

/-- `k` bytes of `n`, big-endian. -/
def toBytesBE (k n : Nat) : List Nat :=
  (List.range k).map (fun i => (n >>> (8 * (k - 1 - i))) % 256)

/-- A big-endian 32-bit word from (up to) four bytes. -/
def word32BE (l : List Nat) : Nat :=
  l.getD 0 0 * 16777216 + l.getD 1 0 * 65536 + l.getD 2 0 * 256 + l.getD 3 0

/-- SHA-256 padding: a `0x80` byte, zeros to 56 mod 64, then the bit length
as eight big-endian bytes. -/
def sha256Pad (msg : List Nat) : List Nat :=
  msg ++ [128] ++ List.replicate ((119 - msg.length % 64) % 64) 0 ++
    toBytesBE 8 (8 * msg.length)

/-- Split into successive 64-byte chunks. -/
def chunks64 (l : List Nat) : List (List Nat) :=
  if l.isEmpty then [] else l.take 64 :: chunks64 (l.drop 64)
termination_by l.length
decreasing_by
  simp only [List.length_drop]
  cases l with
  | nil => simp_all
  | cons a t => simp; omega

/-- The 64-entry message schedule of a chunk. -/
def sha256Schedule (chunk : List Nat) : List Nat :=
  (List.range 48).foldl
    (fun acc _ =>
      let n := acc.length
      acc ++ [w32 (sha2Sig1 (acc.getD (n - 2) 0) + acc.getD (n - 7) 0 +
                   sha2Sig0 (acc.getD (n - 15) 0) + acc.getD (n - 16) 0)])
    ((List.range 16).map (fun i => word32BE ((chunk.drop (4 * i)).take 4)))

/-- One SHA-256 compression round; `kw` is the round constant plus the
schedule word. -/
def sha256Round (st : Sha256Regs) (kw : Nat) : Sha256Regs :=
  let t1 := w32 (st.r7 + sha2Sum1 st.r4 + chFn st.r4 st.r5 st.r6 + kw)
  let t2 := w32 (sha2Sum0 st.r0 + majFn st.r0 st.r1 st.r2)
  ⟨w32 (t1 + t2), st.r0, st.r1, st.r2, w32 (st.r3 + t1), st.r4, st.r5, st.r6⟩

/-- Compress one 64-byte chunk into the running hash. -/
def sha256Chunk (st : Sha256Regs) (chunk : List Nat) : Sha256Regs :=
  let e := ((sha256K.zip (sha256Schedule chunk)).foldl
    (fun s p => sha256Round s (w32 (p.1 + p.2))) st)
  ⟨w32 (st.r0 + e.r0), w32 (st.r1 + e.r1), w32 (st.r2 + e.r2), w32 (st.r3 + e.r3),
   w32 (st.r4 + e.r4), w32 (st.r5 + e.r5), w32 (st.r6 + e.r6), w32 (st.r7 + e.r7)⟩

/-- The SHA-256 digest (32 bytes) of a byte string. -/
def sha256 (msg : List Nat) : List Nat :=
  let f := (chunks64 (sha256Pad msg)).foldl sha256Chunk sha256Start
  toBytesBE 4 f.r0 ++ toBytesBE 4 f.r1 ++ toBytesBE 4 f.r2 ++ toBytesBE 4 f.r3 ++
  toBytesBE 4 f.r4 ++ toBytesBE 4 f.r5 ++ toBytesBE 4 f.r6 ++ toBytesBE 4 f.r7

/-- UTF-8 encoding of one code point (Python `str.encode()`). -/
def utf8Bytes (c : Nat) : List Nat :=
  if c < 128 then [c]
  else if c < 2048 then [192 + c / 64, 128 + c % 64]
  else if c < 65536 then [224 + c / 4096, 128 + c / 64 % 64, 128 + c % 64]
  else [240 + c / 262144, 128 + c / 4096 % 64, 128 + c / 64 % 64, 128 + c % 64]

/-- UTF-8 bytes of a string. -/
def strBytes (s : String) : List Nat :=
  s.data.foldr (fun c acc => utf8Bytes c.toNat ++ acc) []

/-- The sixteen lowercase hex digits. -/
def hexAlphabet : List Char := "0123456789abcdef".data

/-- One lowercase hex digit (digits from code point 48, letters from
code point 87 + 10). -/
def hexDigitChar (n : Nat) : Char :=
  if n < 10 then Char.ofNat (48 + n)
  else if n < 16 then Char.ofNat (87 + n)
  else 'f'

/-- Lowercase hex of a byte string (`hexdigest()`). -/
def hexChars : List Nat → List Char
  | [] => []
  | b :: rest => hexDigitChar (b / 16) :: hexDigitChar (b % 16) :: hexChars rest

/-- `hashlib.sha256(s.encode()).hexdigest()` as a character list. -/
def sha256HexChars (s : String) : List Char := hexChars (sha256 (strBytes s))

/-- The trace id of `store-trace.py` line 114:
`trace_` followed by the first 12 hex digits of
`sha256(timestamp ∥ decision)`. -/
def traceIdOf (timestamp decision : String) : String :=
  "trace_" ++ String.mk ((sha256HexChars (timestamp ++ decision)).take 12)

/-!
## The ChromaDB persistence model

`init-db.py` and `store-trace.py` persist through a `chromadb`
`PersistentClient`.  The client is external; its contract is modelled here:
a persistent store maps a database directory to named collections, and
`get_or_create_collection` returns an existing collection unchanged
(ignoring the metadata argument) or creates an empty one with the given
metadata.
-/

/-- One stored trace record (a `collection.add` entry of
`store-trace.py` lines 127-141). -/
structure TraceRecord where
  id : String
  embedding : List ℚ
  metadata : List (String × Json)
  document : String

/-- A Chroma collection: creation-time metadata and its records. -/
structure Collection where
  meta : Option Json
  records : List TraceRecord

/-- Update one binding of an association list, appending if absent. -/
def assocSet {β : Type} (l : List (String × β)) (k : String) (v : β) :
    List (String × β) :=
  match l with
  | [] => [(k, v)]
  | (k2, v2) :: rest => if k2 == k then (k, v) :: rest else (k2, v2) :: assocSet rest k v

/-- `client.get_or_create_collection(name, metadata)`: the existing
collection if present (its metadata and records untouched), else a fresh
empty collection recording `meta`. -/
def getOrCreateCollection (cols : List (String × Collection)) (name : String)
    (meta : Option Json) : List (String × Collection) × Collection :=
  match cols.lookup name with
  | some c => (cols, c)
  | none => (cols ++ [(name, ⟨meta, []⟩)], ⟨meta, []⟩)

/-- The persistent Chroma state: database directory → named collections. -/
abbrev ChromaFS := List (String × List (String × Collection))

/-- `get_chroma_client`'s database location: `<project>/.claude/chroma`
when a truthy project dir is given, else the ambient `.claude/chroma`. -/
def chromaDbDir (projectDir : Option String) : String :=
  match projectDir with
  | some p => if p ≠ "" then p ++ "/.claude/chroma" else ".claude/chroma"
  | none => ".claude/chroma"

/-- `init_database` of `init-db.py` (lines 13-30): get-or-create the
`traces` collection at the project-scoped location, recording
`EMBEDDING_DIM = 1024` in the collection metadata. -/
def initDatabase (projectDir : Option String) (fs : ChromaFS) : ChromaFS :=
  let dbDir := chromaDbDir projectDir
  let cols := (fs.lookup dbDir).getD []
  let colsAfter := (getOrCreateCollection cols "traces"
    (some (.obj [("embedding_dim", .num 1024)]))).1
  assocSet fs dbDir colsAfter

/-!
## TraceStore — `store-trace.py` and `query-traces.py`
-/

/-- `get_voyage_key`'s fallback through one config file: a missing file is
skipped, an undecodable one raises (uncaught), a decoded non-dict raises on
`.get`, and only a truthy `voyage_api_key` value is returned. -/
def getVoyageKeyFromConfig (cfg : FileReadResult) : Except Unit (Option Json) :=
  match cfg with
  | .missing => .ok none
  | .undecodable => .error ()
  | .ok (.obj fields) =>
    let key := objGet fields "voyage_api_key" .null
    if key.truthy then .ok (some key) else .ok none
  | .ok _ => .error ()

/-- `get_voyage_key`, defined identically in `store-trace.py`
(lines 22-47) and `query-traces.py` (lines 20-42): the `VOYAGE_API_KEY`
environment variable if nonempty, else the project config
`.claude/config/project.json`, else the global config
`~/.claude/config/keys.json`, else nothing. -/
def getVoyageKey (envKey : Option String)
    (projectConfig globalConfig : FileReadResult) : Except Unit (Option Json) :=
  let fromConfigs : Except Unit (Option Json) :=
    match getVoyageKeyFromConfig projectConfig with
    | .error e => .error e
    | .ok (some k) => .ok (some k)
    | .ok none => getVoyageKeyFromConfig globalConfig
  match envKey with
  | some k => if k ≠ "" then .ok (some (.str k)) else fromConfigs
  | none => fromConfigs

/-- The state context read by `get_state_context` (lines 64-80). -/
structure StateContext where
  state : Json
  featureId : Json
  sessionId : Json

/-- `get_state_context`: defaults `state = "unknown"`,
`feature_id = None`, `session_id = None` when the progress state file is
absent; otherwise the file's values (decode failure or a non-dict file is
an uncaught exception). -/
def getStateContext : FileReadResult → Except Unit StateContext
  | .missing => .ok ⟨.str "unknown", .null, .null⟩
  | .undecodable => .error ()
  | .ok (.obj fields) =>
    .ok ⟨objGet fields "state" (.str "unknown"),
         objGet fields "feature_id" .null,
         objGet fields "session_id" .null⟩
  | .ok _ => .error ()

/-- The fatal diagnostic of `store_trace` lines 107-109 when no credential
resolves: it names the environment variable and the project config path. -/
def storeNoKeyMsgs : List String :=
  ["Error: VOYAGE_API_KEY not found",
   "Set via: export VOYAGE_API_KEY=your_key",
   "Or add to .claude/config/project.json: \x7b\"voyage_api_key\": \"...\"\x7d"]

/-- The fatal diagnostic of `query_traces` line 85 when no credential
resolves: the single line naming only the environment variable. -/
def queryNoKeyMsgs : List String :=
  ["Error: VOYAGE_API_KEY not found"]

/-- The ambient inputs of one `store_trace` run: the environment variable,
the two config files, the progress state file, `datetime.now().isoformat()`,
`os.getcwd()`, the Voyage AI document-mode embedding call (`.error` = the
exception message of a transport failure), and the persistent Chroma
state. -/
structure StoreEnv where
  envKey : Option String
  projectConfig : FileReadResult
  globalConfig : FileReadResult
  stateFile : FileReadResult
  now : String
  cwd : String
  embedDoc : String → Except String (List ℚ)
  fs : ChromaFS

/-- Outcome of one `store_trace` run: `fatal` is `sys.exit(1)` with its
printed lines, `crash` an uncaught exception, `done` the returned trace id,
the record added, and the Chroma state afterwards. -/
inductive StoreResult where
  | fatal (msgs : List String) : StoreResult
  | crash : StoreResult
  | done (traceId : String) (record : TraceRecord) (fs : ChromaFS) : StoreResult

/-- The metadata dict built at `store-trace.py` lines 130-139. -/
def storeMetadata (decision category outcome : String) (projectDir : Option String)
    (env : StoreEnv) (ctx : StateContext) : List (String × Json) :=
  [("timestamp", .str env.now),
   ("category", .str category),
   ("decision", .str decision),
   ("outcome", .str outcome),
   ("session_id", pyOr ctx.sessionId (.str "")),
   ("feature_id", pyOr ctx.featureId (.str "")),
   ("state", ctx.state),
   ("project_dir",
    .str (match projectDir with
          | some p => if p ≠ "" then p else env.cwd
          | none => env.cwd))]

/-- The persisting tail of `store_trace` (lines 112-148, given a resolved
credential, state context and embedding): derive the trace id, get-or-create
the `traces` collection (no metadata argument here), and append the
record. -/
def storeSuccess (decision category outcome : String) (projectDir : Option String)
    (env : StoreEnv) (ctx : StateContext) (emb : List ℚ) : StoreResult :=
  let traceId := traceIdOf env.now decision
  let dbDir := chromaDbDir projectDir
  let cols := (env.fs.lookup dbDir).getD []
  let colsAfter := (getOrCreateCollection cols "traces" none).1
  let col := (getOrCreateCollection cols "traces" none).2
  let record : TraceRecord :=
    ⟨traceId, emb, storeMetadata decision category outcome projectDir env ctx, decision⟩
  let col2 : Collection := ⟨col.meta, col.records ++ [record]⟩
  .done traceId record (assocSet env.fs dbDir (assocSet colsAfter "traces" col2))

/-- `store_trace` (lines 97-148): resolve the credential (fatal if none),
read the state context, request a document embedding (fatal on transport
failure, no retry), then derive the id and persist the record. -/
def storeTrace (decision category outcome : String) (projectDir : Option String)
    (env : StoreEnv) : StoreResult :=
  match getVoyageKey env.envKey env.projectConfig env.globalConfig with
  | .error _ => .crash
  | .ok none => .fatal storeNoKeyMsgs
  | .ok (some _) =>
    match getStateContext env.stateFile with
    | .error _ => .crash
    | .ok ctx =>
      match env.embedDoc decision with
      | .error e => .fatal ["Error getting embedding: " ++ e]
      | .ok emb => storeSuccess decision category outcome projectDir env ctx emb

/-- `similarity = 1 / (1 + distance)` — `query-traces.py` line 124,
converting a raw nearest-neighbor distance to a similarity score.  The
script evaluates this in IEEE-754 double precision; the formula is carried
here over exact rationals only so the query-result embedding is typed —
the float rounding behaviour (`1/(1+1e-17)` evaluating to exactly `1.0`,
distinct tiny distances tying) is *not* modelled, and no theorem in this
development asserts float-level properties of it. -/
def querySimilarity (d : ℚ) : ℚ := 1 / (1 + d)

/-- Round half to even at the integers (Python `round`). -/
def roundHalfEven (q : ℚ) : ℤ :=
  if q - ⌊q⌋ < 1 / 2 then ⌊q⌋
  else if q - ⌊q⌋ > 1 / 2 then ⌊q⌋ + 1
  else if ⌊q⌋ % 2 = 0 then ⌊q⌋ else ⌊q⌋ + 1

/-- Python `round(q, 3)` (line 129), over exact rationals. -/
def pyRound3 (q : ℚ) : ℚ := (roundHalfEven (q * 1000) : ℚ) / 1000

/-- The `[0]`-indexed lists of one `collection.query` reply. -/
structure ChromaQueryResult where
  ids : List String
  metadatas : List Json
  documents : List String
  distances : List ℚ

/-- One displayed match of `query_traces` (lines 126-136). -/
structure QueryRow where
  rank : Nat
  id : String
  similarity : ℚ
  category : Json
  decision : Json
  outcome : Json
  state : Json
  featureId : Json
  timestamp : Json

/-- The result loop of `query_traces` lines 118-137: each match pairs the
id with the metadata, document and distance at the same index (a missing
index or a non-dict metadata entry is an uncaught exception), carrying
`round(1 / (1 + distance), 3)` as the similarity. -/
def buildQueryRows (rank : Nat) :
    List String → List Json → List String → List ℚ → Except Unit (List QueryRow)
  | [], _, _, _ => .ok []
  | tid :: ids, .obj md :: mds, doc :: docs, d :: ds =>
    let row : QueryRow :=
      ⟨rank, tid, pyRound3 (querySimilarity d),
       objGet md "category" .null,
       pyOr (objGet md "decision" .null) (.str doc),
       objGet md "outcome" .null,
       objGet md "state" .null,
       objGet md "feature_id" .null,
       objGet md "timestamp" .null⟩
    match buildQueryRows (rank + 1) ids mds docs ds with
    | .ok rows => .ok (row :: rows)
    | .error e => .error e
  | _ :: _, _, _, _ => .error ()

/-- The metadata filter built at lines 95-100 (`where` clause): exact-match
entries for a truthy category and outcome. -/
def queryWhere (category outcome : Option String) : List (String × String) :=
  (match category with
   | some c => if c ≠ "" then [("category", c)] else []
   | none => []) ++
  (match outcome with
   | some o => if o ≠ "" then [("outcome", o)] else []
   | none => [])

/-- The ambient inputs of one `query_traces` run; `search` is the external
`collection.query` call at the given database directory. -/
structure QueryEnv where
  envKey : Option String
  projectConfig : FileReadResult
  globalConfig : FileReadResult
  embedQuery : String → Except String (List ℚ)
  search : String → List ℚ → Nat → List (String × String) → ChromaQueryResult

/-- Outcome of one `query_traces` run: `fatal` is `sys.exit(1)` with its
printed lines, `crash` an uncaught exception, `noTraces` the
empty-collection hint (exit 0, empty result), `results` the ranked
matches. -/
inductive QueryResult where
  | fatal (msgs : List String) : QueryResult
  | crash : QueryResult
  | noTraces (msgs : List String) : QueryResult
  | results (rows : List QueryRow) : QueryResult

/-- `query_traces` (lines 74-149): resolve the credential (fatal if none),
request a query-mode embedding (fatal on transport failure), run the
nearest-neighbor search with the metadata filter, and convert each raw
distance; an empty reply yields the initialize-first hint rather than an
error. -/
def queryTraces (query : String) (limit : Nat) (category outcome : Option String)
    (projectDir : Option String) (env : QueryEnv) : QueryResult :=
  match getVoyageKey env.envKey env.projectConfig env.globalConfig with
  | .error _ => .crash
  | .ok none => .fatal queryNoKeyMsgs
  | .ok (some _) =>
    match env.embedQuery query with
    | .error e => .fatal ["Error getting embedding: " ++ e]
    | .ok qemb =>
      let res := env.search (chromaDbDir projectDir) qemb limit (queryWhere category outcome)
      if res.ids.isEmpty then
        .noTraces ["=== No traces found ===", "Run init-db.py and store-trace.py first"]
      else
        match buildQueryRows 1 res.ids res.metadatas res.documents res.distances with
        | .ok rows => .results rows
        | .error _ => .crash

/-- The collection registered under `name` at database directory `dbDir`. -/
def collectionAt (fs : ChromaFS) (dbDir name : String) : Option Collection :=
  ((fs.lookup dbDir).getD []).lookup name

/-- A well-formed hook event writing `contentStr` to path `fp`. -/
def featureWriteEvent (fp contentStr : String) : Json :=
  .obj [("tool_input",
    .obj [("file_path", .str fp), ("content", .str contentStr)])]

/-!
## Theorems

One theorem per claim, in claim order, each preceded by supporting lemmas
where needed.
-/

/-- Core run of the StateGuard on a well-formed state-write event: once the
payload decodes to an object carrying `attempted` under `"state"` and the
state file carries `current`, the verdict is exactly the decision of lines
66-74 — allow on self-transition, then `TypeError` (exit 1) at
`VALID_TRANSITIONS.get` if `current` is an unhashable list/dict, else
block or allow by table membership. -/
theorem stateGuard_run (loads : String → Except Unit Json)
    (readFile : String → FileReadResult) (cs : String) (current attempted : Json)
    (hcs : cs ≠ "")
    (hl : loads cs = .ok (.obj [("state", attempted)]))
    (hr : readFile ".claude/progress/state.json" = .ok (.obj [("state", current)])) :
    verifyStateTransition (.ok (stateWriteEvent cs)) loads readFile =
      (if pyEq current attempted then .allow
       else if current.hashable = false then .crash
       else if jsonMemStrList attempted (validTransitionsGet current) = false then
         .block current attempted (validTransitionsGet current)
       else .allow) := by
  have hsc : strContains ".claude/progress/state.json" "state.json" = true := by decide
  simp +decide [verifyStateTransition, stateWriteEvent, objGet, List.lookup, Json.truthy,
    pyIn, hsc, hcs, hl, hr]

/-- Claim C1: for every pair with a string `current` (the shape the state
record persists — `dict.get` is total on strings) and `attempted`
different from `current` and not a member of `TransitionTable[current]`,
StateGuard blocks (exit code 2) and its diagnostic carries both the
rejected pair and the full valid-next set; the valid-next set for `START`
is `\x7bINIT, IMPLEMENT\x7d`. -/
theorem stateGuard_blocks_invalid_transition
    (loads : String → Except Unit Json) (readFile : String → FileReadResult)
    (cs current : String) (attempted : Json)
    (hcs : cs ≠ "")
    (hl : loads cs = .ok (.obj [("state", attempted)]))
    (hr : readFile ".claude/progress/state.json" =
      .ok (.obj [("state", .str current)]))
    (hne : pyEq (.str current) attempted = false)
    (hnm : jsonMemStrList attempted (validTransitionsGet (.str current)) = false) :
    verifyStateTransition (.ok (stateWriteEvent cs)) loads readFile =
      .block (.str current) attempted (validTransitionsGet (.str current)) ∧
    validTransitionsGet (.str "START") = ["INIT", "IMPLEMENT"] := by
  rw [stateGuard_run loads readFile cs (.str current) attempted hcs hl hr]
  exact ⟨by simp [hne, hnm, Json.hashable], by decide⟩

/-- Witness for C1 — Scenario A: `current=START, attempted=TEST` is
blocked, the diagnostic carrying the pair and `["INIT", "IMPLEMENT"]`. -/
theorem stateGuard_blocks_invalid_transition_witness :
    verifyStateTransition (.ok (stateWriteEvent "\x7b\"state\": \"TEST\"\x7d"))
      (constLoads (.obj [("state", .str "TEST")]))
      (constRead (.ok (.obj [("state", .str "START")]))) =
      .block (.str "START") (.str "TEST") ["INIT", "IMPLEMENT"] :=
  (stateGuard_blocks_invalid_transition _ _ _ "START" _
    (by decide) rfl rfl (by decide) (by decide)).1

/-- Claim C2 (corrected), counterexample: a payload that is valid JSON but
an uninterpretable shape — the written content decodes to the array
`[1, 2, 3]` — makes the guard raise an uncaught `AttributeError`
(`.get` on a list), exiting 1; it does not fail open. -/
theorem stateGuard_array_payload_crashes :
    verifyStateTransition (.ok (stateWriteEvent "[1, 2, 3]"))
      (constLoads (.arr [.num 1, .num 2, .num 3])) (constRead .missing) =
      .crash ∧
    StateGuardResult.crash ≠ StateGuardResult.allow := by
  exact ⟨rfl, by simp⟩

/-- Claim C2 (amended): on every JSON *decode* failure — stdin that is not
JSON, or written content that `json.loads` rejects — StateGuard allows
(exit 0). -/
theorem stateGuard_fail_open_on_parse_failure
    (loads : String → Except Unit Json) (readFile : String → FileReadResult)
    (cs : String) (hcs : cs ≠ "") (hl : loads cs = .error ()) :
    verifyStateTransition (.error ()) loads readFile = .allow ∧
    verifyStateTransition (.ok (stateWriteEvent cs)) loads readFile = .allow := by
  constructor
  · rfl
  · have hsc : strContains ".claude/progress/state.json" "state.json" = true := by decide
    simp +decide [verifyStateTransition, stateWriteEvent, objGet, List.lookup,
      Json.truthy, pyIn, hsc, hcs, hl]

/-- Witness for C2's amended theorem at concrete oracles. -/
theorem stateGuard_fail_open_on_parse_failure_witness :
    verifyStateTransition (.error ()) failLoads (constRead .missing) = .allow ∧
    verifyStateTransition (.ok (stateWriteEvent "not json")) failLoads
      (constRead .missing) = .allow :=
  stateGuard_fail_open_on_parse_failure failLoads (constRead .missing)
    "not json" (by decide) rfl

/-- A value whose transition table entry has members is one of the six
table keys, hence a string, hence hashable. -/
theorem validTransitionsGet_mem_hashable (current attempted : Json)
    (h : jsonMemStrList attempted (validTransitionsGet current) = true) :
    current.hashable = true := by
  cases current with
  | str s => rfl
  | null => rfl
  | bool b => rfl
  | num q => rfl
  | arr l => cases attempted <;> simp [validTransitionsGet, jsonMemStrList] at h
  | obj l => cases attempted <;> simp [validTransitionsGet, jsonMemStrList] at h

/-- Claim C4: a pair with `attempted` equal to `current`, or with
`attempted` a member of `TransitionTable[current]`, is allowed (exit 0);
the self-transition case needs no table support, so it also holds at
`COMPLETE` whose table entry is empty. -/
theorem stateGuard_allows_valid_transition
    (loads : String → Except Unit Json) (readFile : String → FileReadResult)
    (cs : String) (current attempted : Json)
    (hcs : cs ≠ "")
    (hl : loads cs = .ok (.obj [("state", attempted)]))
    (hr : readFile ".claude/progress/state.json" = .ok (.obj [("state", current)]))
    (h : pyEq current attempted = true ∨
         jsonMemStrList attempted (validTransitionsGet current) = true) :
    verifyStateTransition (.ok (stateWriteEvent cs)) loads readFile = .allow := by
  rw [stateGuard_run loads readFile cs current attempted hcs hl hr]
  rcases h with h | h
  · simp [h]
  · have hh := validTransitionsGet_mem_hashable current attempted h
    simp [h, hh]

/-- Witness for C4: the self-transition `COMPLETE → COMPLETE` is allowed
even though `TransitionTable[COMPLETE]` is empty. -/
theorem stateGuard_allows_valid_transition_witness :
    verifyStateTransition (.ok (stateWriteEvent "\x7b\"state\": \"COMPLETE\"\x7d"))
      (constLoads (.obj [("state", .str "COMPLETE")]))
      (constRead (.ok (.obj [("state", .str "COMPLETE")]))) = .allow :=
  stateGuard_allows_valid_transition _ _ _ _ _
    (by decide) rfl rfl (Or.inl (by decide))

/-- Claim C9 (corrected), counterexample: a state file holding the
corrupted value `\x7b"state": [1, 2]\x7d` makes `VALID_TRANSITIONS.get`
raise `TypeError: unhashable type` — the script exits 1 (crash); the
attempted `"TEST"` is neither blocked nor allowed, so the lookup is not
exception-free on every foreign value. -/
theorem stateGuard_unhashable_state_crashes :
    verifyStateTransition (.ok (stateWriteEvent "\x7b\"state\": \"TEST\"\x7d"))
      (constLoads (.obj [("state", .str "TEST")]))
      (constRead (.ok (.obj [("state", .arr [.num 1, .num 2])]))) = .crash ∧
    StateGuardResult.crash ≠
      StateGuardResult.block (.arr [.num 1, .num 2]) (.str "TEST") [] := by
  exact ⟨rfl, by simp⟩

/-- Claim C9 (amended): when the state file decodes to an object whose
`"state"` value is a *hashable* foreign value — any string outside the six
known states, a number, a boolean or null — the defaulted table lookup is
total and yields the empty valid-next set, so every attempted value other
than the stored one is blocked and the self-transition is still allowed.
(A stored list or dict is an unhashable dict key: `dict.get` raises
`TypeError` and the guard exits 1 — the counterexample above.) -/
theorem stateGuard_unknown_state_total
    (loads : String → Except Unit Json) (readFile : String → FileReadResult)
    (cs : String) (v attempted : Json)
    (hcs : cs ≠ "")
    (hl : loads cs = .ok (.obj [("state", attempted)]))
    (hr : readFile ".claude/progress/state.json" = .ok (.obj [("state", v)]))
    (hhash : v.hashable = true)
    (hv : ∀ s ∈ ["START", "FIX_BROKEN", "INIT", "IMPLEMENT", "TEST", "COMPLETE"],
        pyEq v (.str s) = false) :
    validTransitionsGet v = [] ∧
    (pyEq v attempted = false →
      verifyStateTransition (.ok (stateWriteEvent cs)) loads readFile =
        .block v attempted []) ∧
    (pyEq v attempted = true →
      verifyStateTransition (.ok (stateWriteEvent cs)) loads readFile = .allow) := by
  have hnone : validTransitionsGet v = [] := by
    cases v with
    | str s =>
      have h1 := hv "START" (by simp)
      have h2 := hv "FIX_BROKEN" (by simp)
      have h3 := hv "INIT" (by simp)
      have h4 := hv "IMPLEMENT" (by simp)
      have h5 := hv "TEST" (by simp)
      have h6 := hv "COMPLETE" (by simp)
      simp [pyEq] at h1 h2 h3 h4 h5 h6
      have b1 : (s == "START") = false := beq_eq_false_iff_ne.mpr h1
      have b2 : (s == "FIX_BROKEN") = false := beq_eq_false_iff_ne.mpr h2
      have b3 : (s == "INIT") = false := beq_eq_false_iff_ne.mpr h3
      have b4 : (s == "IMPLEMENT") = false := beq_eq_false_iff_ne.mpr h4
      have b5 : (s == "TEST") = false := beq_eq_false_iff_ne.mpr h5
      have b6 : (s == "COMPLETE") = false := beq_eq_false_iff_ne.mpr h6
      simp [validTransitionsGet, VALID_TRANSITIONS, List.lookup, b1, b2, b3, b4, b5, b6]
    | null => rfl
    | bool b => rfl
    | num q => rfl
    | arr l => simp [Json.hashable] at hhash
    | obj l => simp [Json.hashable] at hhash
  refine ⟨hnone, fun hne => ?_, fun hself => ?_⟩
  · rw [stateGuard_run loads readFile cs v attempted hcs hl hr, hnone]
    have hm : jsonMemStrList attempted [] = false := by cases attempted <;> rfl
    simp [hne, hm, hhash]
  · rw [stateGuard_run loads readFile cs v attempted hcs hl hr]
    simp [hself]

/-- Witness for C9's amended theorem: with the foreign (hashable) stored
value `"BOGUS"`, even the normally-reachable `INIT` is blocked and the
valid-next set is empty. -/
theorem stateGuard_unknown_state_total_witness :
    verifyStateTransition (.ok (stateWriteEvent "\x7b\"state\": \"INIT\"\x7d"))
      (constLoads (.obj [("state", .str "INIT")]))
      (constRead (.ok (.obj [("state", .str "BOGUS")]))) =
      .block (.str "BOGUS") (.str "INIT") [] :=
  (stateGuard_unknown_state_total _ _ _ (.str "BOGUS") _
    (by decide) rfl rfl rfl (by decide)).2.1 (by decide)

/-- Claim C3 (corrected), counterexample, two parts.  First: with modified
paths `a.txt` and `b.txt` reported by the version-control status, the
guard blocks — but its message is the fixed four-line diagnostic, which
names neither offending path (it lists no paths at all).  Second: with the
VCS tool erroring and the written content `[\x7b"status": "tested"\x7d]`
(a JSON list), the guard does not allow — `new_data.get` raises an
uncaught `AttributeError` and the script exits 1, so "VCS unavailable or
errors → allow" also fails as stated. -/
theorem gitGuard_block_message_names_no_paths :
    (requireCommitBeforeTested
      (.ok (featureWriteEvent ".claude/progress/feature-list.json"
        "\x7b\"features\": [\x7b\"id\": \"f1\", \"status\": \"tested\"\x7d]\x7d"))
      failLoads (.ok " M a.txt\n?? b.txt\n") = .block requireCommitBlockMsgs ∧
    requireCommitBlockMsgs.all
      (fun m => !(strContains m "a.txt") && !(strContains m "b.txt")) = true) ∧
    requireCommitBeforeTested
      (.ok (featureWriteEvent ".claude/progress/feature-list.json"
        "[\x7b\"status\": \"tested\"\x7d]"))
      (constLoads (.arr [.obj [("status", .str "tested")]])) (.error ()) =
      .crash :=
  ⟨⟨rfl, by decide⟩, rfl⟩

/-- Claim C3 (amended): on a feature-ledger write whose content marks a
feature tested, a dirty working tree blocks (exit 2) with the fixed
message.  When the VCS tool is unavailable or errors, the dirtiness check
reports clean and the guard never blocks: it allows when the content fails
to re-decode or decodes to an object with a well-formed feature list, but
content that decodes to a non-object raises an uncaught error (exit 1). -/
theorem gitGuard_blocks_dirty_fixed_message_fail_open
    (loads : String → Except Unit Json) (git : Except Unit String) (fp c : String)
    (hfp : strContains fp "feature-list.json" = true)
    (hc : (strContains c "\"status\": \"tested\"" ||
           strContains c "\"status\":\"tested\"") = true) :
    (hasUncommittedChanges git = true →
      requireCommitBeforeTested (.ok (featureWriteEvent fp c)) loads git =
        .block requireCommitBlockMsgs) ∧
    (∀ e, git = .error e → hasUncommittedChanges git = false) ∧
    (hasUncommittedChanges git = false → loads c = .error () →
      requireCommitBeforeTested (.ok (featureWriteEvent fp c)) loads git =
        .allow []) ∧
    (hasUncommittedChanges git = false →
      ∀ ndFs fl ws, loads c = .ok (.obj ndFs) →
        objGet ndFs "features" (.arr []) = .arr fl →
        warnedFeatureIds fl = .ok ws →
        requireCommitBeforeTested (.ok (featureWriteEvent fp c)) loads git =
          .allow ws) ∧
    (hasUncommittedChanges git = false →
      ∀ l, loads c = .ok (.arr l) →
        requireCommitBeforeTested (.ok (featureWriteEvent fp c)) loads git =
          .crash) := by
  have hrun : requireCommitBeforeTested (.ok (featureWriteEvent fp c)) loads git =
      (if hasUncommittedChanges git then .block requireCommitBlockMsgs
       else
        match loads c with
        | .error _ => .allow []
        | .ok nd =>
          match nd with
          | .obj ndFs =>
            match objGet ndFs "features" (.arr []) with
            | .arr fl =>
              match warnedFeatureIds fl with
              | .ok ws => .allow ws
              | .error _ => .crash
            | .str s => if s = "" then .allow [] else .crash
            | .obj l => if l.isEmpty then .allow [] else .crash
            | _ => .crash
          | _ => .crash) := by
    have hc2 : strContains c "\"status\": \"tested\"" = true ∨
        strContains c "\"status\":\"tested\"" = true := by simpa using hc
    rcases hc2 with hc1 | hc1
    · simp [requireCommitBeforeTested, featureWriteEvent, objGet, List.lookup,
        pyIn, hfp, hc1]
    · cases hA : strContains c "\"status\": \"tested\"" <;>
        simp [requireCommitBeforeTested, featureWriteEvent, objGet, List.lookup,
          pyIn, hfp, hA, hc1]
  refine ⟨fun hg => by rw [hrun]; simp [hg],
    fun e he => by simp [hasUncommittedChanges, he],
    fun hg hl => by rw [hrun]; simp [hg, hl],
    fun hg ndFs fl ws hl hf hw => by rw [hrun]; simp [hg, hl, hf, hw],
    fun hg l hl => by rw [hrun]; simp [hg, hl]⟩

/-- Witness for C3's amended theorem: a dirty tree blocks with the fixed
message. -/
theorem gitGuard_blocks_dirty_fixed_message_fail_open_witness :
    requireCommitBeforeTested
      (.ok (featureWriteEvent "feature-list.json" "\"status\": \"tested\""))
      failLoads (.ok "M x.txt") = .block requireCommitBlockMsgs :=
  (gitGuard_blocks_dirty_fixed_message_fail_open failLoads (.ok "M x.txt")
    "feature-list.json" "\"status\": \"tested\"" (by decide) (by decide)).1 (by decide)

/-- Claim C5 (corrected), counterexample: with no credential anywhere,
`query_traces` exits fatally with the single line
`Error: VOYAGE_API_KEY not found` — it names the environment variable but
not the config file path, contrary to the claim that both Store and Query
name the env var and the config path. -/
theorem query_no_key_message_lacks_config_path :
    queryTraces "backoff strategy" 5 none none none
      ⟨none, .missing, .missing, fun _ => .ok [], fun _ _ _ _ => ⟨[], [], [], []⟩⟩ =
      .fatal queryNoKeyMsgs ∧
    queryNoKeyMsgs.all (fun m => strContains m "VOYAGE_API_KEY") = true ∧
    queryNoKeyMsgs.all (fun m => !(strContains m ".claude/config/project.json")) = true ∧
    queryNoKeyMsgs.all (fun m => !(strContains m "keys.json")) = true :=
  ⟨rfl, by decide, by decide, by decide⟩

/-- Claim C5 (amended): credential resolution follows the strict priority
environment variable → project config → global config, returning the first
truthy key; with no key anywhere both Store and Query exit fatally — the
Store message names the environment variable and the project config path,
the Query message names only the environment variable. -/
theorem voyage_key_priority_and_messages :
    (∀ (k : String) (pc gc : FileReadResult), k ≠ "" →
      getVoyageKey (some k) pc gc = .ok (some (.str k))) ∧
    (∀ (ek : Option String) (pcf : List (String × Json)) (gc : FileReadResult),
      ek = none ∨ ek = some "" →
      (objGet pcf "voyage_api_key" .null).truthy = true →
      getVoyageKey ek (.ok (.obj pcf)) gc =
        .ok (some (objGet pcf "voyage_api_key" .null))) ∧
    (∀ (ek : Option String) (gcf : List (String × Json)),
      ek = none ∨ ek = some "" →
      getVoyageKey ek .missing (.ok (.obj gcf)) =
        (if (objGet gcf "voyage_api_key" .null).truthy
         then .ok (some (objGet gcf "voyage_api_key" .null)) else .ok none)) ∧
    (∀ (d c o : String) (pd : Option String) (env : StoreEnv),
      env.envKey = none → env.projectConfig = .missing → env.globalConfig = .missing →
      storeTrace d c o pd env = .fatal storeNoKeyMsgs) ∧
    (∀ (q : String) (l : Nat) (cat oc pd : Option String) (env : QueryEnv),
      env.envKey = none → env.projectConfig = .missing → env.globalConfig = .missing →
      queryTraces q l cat oc pd env = .fatal queryNoKeyMsgs) ∧
    (storeNoKeyMsgs.any (fun m => strContains m "VOYAGE_API_KEY") = true ∧
     storeNoKeyMsgs.any (fun m => strContains m ".claude/config/project.json") = true) ∧
    queryNoKeyMsgs.any (fun m => strContains m "VOYAGE_API_KEY") = true := by
  refine ⟨?_, ?_, ?_, ?_, ?_, ⟨by decide, by decide⟩, by decide⟩
  · intro k pc gc hk
    simp [getVoyageKey, hk]
  · rintro ek pcf gc (rfl | rfl) ht <;>
      simp [getVoyageKey, getVoyageKeyFromConfig, ht]
  · rintro ek gcf (rfl | rfl) <;>
      cases ht : (objGet gcf "voyage_api_key" .null).truthy <;>
      simp [getVoyageKey, getVoyageKeyFromConfig, ht]
  · intro d c o pd env h1 h2 h3
    simp [storeTrace, getVoyageKey, getVoyageKeyFromConfig, h1, h2, h3]
  · intro q l cat oc pd env h1 h2 h3
    simp [queryTraces, getVoyageKey, getVoyageKeyFromConfig, h1, h2, h3]

/-- Witness for C5's amended theorem: the environment key wins, a project
config key is found when the env var is unset, and a Store run without any
credential is fatal with the documented message. -/
theorem voyage_key_priority_and_messages_witness :
    getVoyageKey (some "k1") .missing .missing = .ok (some (.str "k1")) ∧
    getVoyageKey none (.ok (.obj [("voyage_api_key", .str "k2")])) .missing =
      .ok (some (.str "k2")) ∧
    storeTrace "d" "design" "pending" none
      ⟨none, .missing, .missing, .missing, "T", "/p", fun _ => .ok [], []⟩ =
      .fatal storeNoKeyMsgs :=
  ⟨voyage_key_priority_and_messages.1 "k1" .missing .missing (by decide),
   voyage_key_priority_and_messages.2.1 none [("voyage_api_key", .str "k2")]
     .missing (Or.inl rfl) (by decide),
   voyage_key_priority_and_messages.2.2.2.1 "d" "design" "pending" none
     ⟨none, .missing, .missing, .missing, "T", "/p", fun _ => .ok [], []⟩ rfl rfl rfl⟩

/-- Every character emitted by the hex digit map is a lowercase hex
digit. -/
theorem hexDigitChar_mem (n : Nat) :
    hexDigitChar n ∈ hexAlphabet := by
  unfold hexDigitChar
  split
  · interval_cases n <;> decide
  · split
    · rename_i h1 h2
      interval_cases n <;> decide
    · decide

/-- Every character of a hex digest is a lowercase hex digit. -/
theorem hexChars_mem (bs : List Nat) :
    ∀ c ∈ hexChars bs,
      c ∈ hexAlphabet := by
  induction bs with
  | nil => simp [hexChars]
  | cons b rest ih =>
    intro c hc
    simp only [hexChars, List.mem_cons] at hc
    rcases hc with rfl | rfl | hc
    · exact hexDigitChar_mem _
    · exact hexDigitChar_mem _
    · exact ih c hc

/-- A hex digest has two characters per byte. -/
theorem hexChars_length (bs : List Nat) : (hexChars bs).length = 2 * bs.length := by
  induction bs with
  | nil => rfl
  | cons b rest ih => simp [hexChars, ih]; omega

/-- `toBytesBE` emits exactly `k` bytes. -/
theorem toBytesBE_length (k n : Nat) : (toBytesBE k n).length = k := by
  simp [toBytesBE]

/-- A SHA-256 digest is 32 bytes. -/
theorem sha256_length (msg : List Nat) : (sha256 msg).length = 32 := by
  simp [sha256, toBytesBE_length]

/-- Every `store_trace` success returns the id derived from
`now ∥ decision`. -/
theorem storeTrace_done_id (d c o : String) (pd : Option String) (env : StoreEnv)
    (tid : String) (record : TraceRecord) (fsOut : ChromaFS)
    (h : storeTrace d c o pd env = .done tid record fsOut) :
    tid = traceIdOf env.now d := by
  unfold storeTrace at h
  split at h
  · exact absurd h (by simp)
  · exact absurd h (by simp)
  · split at h
    · exact absurd h (by simp)
    · split at h
      · exact absurd h (by simp)
      · simp [storeSuccess] at h
        exact h.1.symm

/-- Claim C6: the trace id is a deterministic function of the timestamp
and the decision text — the constant `trace_` followed by the SHA-256 hex
digest of `timestamp ∥ decision_text` truncated to 12 hex digits; two
Store calls with equal timestamp and text produce equal ids. -/
theorem trace_id_deterministic_sha256
    (decision category outcome : String) (pd : Option String) (env : StoreEnv)
    (tid : String) (record : TraceRecord) (fsOut : ChromaFS)
    (h : storeTrace decision category outcome pd env = .done tid record fsOut) :
    tid = traceIdOf env.now decision ∧
    tid = "trace_" ++
      String.mk ((hexChars (sha256 (strBytes (env.now ++ decision)))).take 12) ∧
    ((sha256HexChars (env.now ++ decision)).take 12).length = 12 ∧
    (∀ c ∈ (sha256HexChars (env.now ++ decision)).take 12,
      c ∈ hexAlphabet) ∧
    (∀ (d2 c2 o2 : String) (pd2 : Option String) (env2 : StoreEnv)
        (tid2 : String) (r2 : TraceRecord) (f2 : ChromaFS),
      storeTrace d2 c2 o2 pd2 env2 = .done tid2 r2 f2 →
      env2.now = env.now → d2 = decision → tid2 = tid) := by
  have h1 := storeTrace_done_id decision category outcome pd env tid record fsOut h
  refine ⟨h1, h1, ?_, ?_, ?_⟩
  · rw [List.length_take, sha256HexChars, hexChars_length, sha256_length]
    omega
  · intro c hc
    exact hexChars_mem _ c (List.take_subset _ _ hc)
  · intro d2 c2 o2 pd2 env2 tid2 r2 f2 h2 hnow hd
    rw [storeTrace_done_id d2 c2 o2 pd2 env2 tid2 r2 f2 h2, hnow, hd, h1]

/-- Witness for C6 at a concrete successful store. -/
theorem trace_id_deterministic_sha256_witness :
    ((sha256HexChars ("T" ++ "d")).take 12).length = 12 :=
  (trace_id_deterministic_sha256 "d" "c" "pending" none
    ⟨some "key", .missing, .missing, .missing, "T", "/p", fun _ => .ok [], []⟩
    _ _ _ rfl).2.2.1

/-- `assocSet` makes the key look up the new value. -/
theorem assocSet_lookup {β : Type} (l : List (String × β)) (k : String) (v : β) :
    (assocSet l k v).lookup k = some v := by
  induction l with
  | nil => simp [assocSet, List.lookup]
  | cons p rest ih =>
    obtain ⟨k2, v2⟩ := p
    by_cases h : k2 = k
    · simp [assocSet, h, List.lookup]
    · have h1 : (k2 == k) = false := beq_eq_false_iff_ne.mpr h
      have h2 : (k == k2) = false := beq_eq_false_iff_ne.mpr (Ne.symm h)
      simp [assocSet, List.lookup, h1, h2, ih]

/-- Re-setting the same key overwrites the earlier `assocSet`. -/
theorem assocSet_assocSet {β : Type} (l : List (String × β)) (k : String) (v v2 : β) :
    assocSet (assocSet l k v) k v2 = assocSet l k v2 := by
  induction l with
  | nil => simp [assocSet]
  | cons p rest ih =>
    obtain ⟨k2, vv⟩ := p
    by_cases h : k2 = k
    · simp [assocSet, h]
    · have h1 : (k2 == k) = false := beq_eq_false_iff_ne.mpr h
      simp [assocSet, h1, ih]

/-- Looking up a key appended at the end of a list that lacks it. -/
theorem lookup_append_single {β : Type} (l : List (String × β)) (k : String) (v : β)
    (h : l.lookup k = none) : (l ++ [(k, v)]).lookup k = some v := by
  induction l with
  | nil => simp [List.lookup]
  | cons p rest ih =>
    obtain ⟨k2, v2⟩ := p
    by_cases hk : k = k2
    · have h1 : (k == k2) = true := beq_iff_eq.mpr hk
      simp only [List.lookup, h1] at h
      exact Option.noConfusion h
    · have h1 : (k == k2) = false := beq_eq_false_iff_ne.mpr hk
      simp only [List.cons_append, List.lookup, h1] at h ⊢
      exact ih h

/-- After `get_or_create_collection`, the name maps to the returned
collection. -/
theorem getOrCreateCollection_lookup (cols : List (String × Collection))
    (name : String) (meta : Option Json) :
    ((getOrCreateCollection cols name meta).1).lookup name =
      some ((getOrCreateCollection cols name meta).2) := by
  unfold getOrCreateCollection
  cases h : cols.lookup name with
  | some c => simp [h]
  | none => simp [h, lookup_append_single _ _ _ h]

/-- When the name is already registered, `get_or_create_collection` leaves
the collection map unchanged. -/
theorem getOrCreate_fst_stable (a : List (String × Collection)) (name : String)
    (m : Option Json) (c : Collection) (h : a.lookup name = some c) :
    (getOrCreateCollection a name m).1 = a := by
  unfold getOrCreateCollection
  rw [h]

/-- `initDatabase`, unfolded once. -/
theorem initDatabase_eq (pd : Option String) (fs : ChromaFS) :
    initDatabase pd fs =
      assocSet fs (chromaDbDir pd)
        ((getOrCreateCollection ((fs.lookup (chromaDbDir pd)).getD []) "traces"
          (some (.obj [("embedding_dim", .num 1024)]))).1) := rfl

/-- Claim C7: `Init()` is idempotent — a second run on the same project is
a no-op on the Chroma state; an existing `traces` collection (its metadata
and every record) is left untouched; when absent it is created empty with
`embedding_dim = 1024` recorded in the collection metadata. -/
theorem init_database_idempotent (pd : Option String) (fs : ChromaFS) :
    initDatabase pd (initDatabase pd fs) = initDatabase pd fs ∧
    (∀ c, collectionAt fs (chromaDbDir pd) "traces" = some c →
      collectionAt (initDatabase pd fs) (chromaDbDir pd) "traces" = some c) ∧
    (collectionAt fs (chromaDbDir pd) "traces" = none →
      collectionAt (initDatabase pd fs) (chromaDbDir pd) "traces" =
        some ⟨some (.obj [("embedding_dim", .num 1024)]), []⟩) := by
  refine ⟨?_, ?_, ?_⟩
  · rw [initDatabase_eq pd (initDatabase pd fs), initDatabase_eq pd fs, assocSet_lookup]
    simp only [Option.getD_some]
    rw [getOrCreate_fst_stable _ _ _ _ (getOrCreateCollection_lookup _ _ _)]
    exact assocSet_assocSet fs (chromaDbDir pd) _ _
  · intro c hc
    unfold collectionAt at hc ⊢
    rw [initDatabase_eq pd fs, assocSet_lookup]
    simp only [Option.getD_some]
    rw [getOrCreate_fst_stable _ _ _ _ hc]
    exact hc
  · intro hc
    unfold collectionAt at hc ⊢
    rw [initDatabase_eq pd fs, assocSet_lookup]
    simp only [Option.getD_some]
    unfold getOrCreateCollection
    rw [hc]
    exact lookup_append_single _ _ _ hc

/-- Witness for C7: on an empty store, `Init()` creates the `traces`
collection with dimensionality 1024, and running it again changes
nothing and preserves the created collection. -/
theorem init_database_idempotent_witness :
    initDatabase none (initDatabase none []) = initDatabase none [] ∧
    collectionAt (initDatabase none []) (chromaDbDir none) "traces" =
      some ⟨some (.obj [("embedding_dim", .num 1024)]), []⟩ ∧
    collectionAt (initDatabase none (initDatabase none []))
      (chromaDbDir none) "traces" =
      some ⟨some (.obj [("embedding_dim", .num 1024)]), []⟩ :=
  ⟨(init_database_idempotent none []).1,
   (init_database_idempotent none []).2.2 rfl,
   (init_database_idempotent none (initDatabase none [])).2.1 _ rfl⟩

/-- Claim C10: a Store run with the project state file absent records
`state = "unknown"`, and the missing session and feature ids are stored as
empty strings, never as null — every metadata field of the persisted
record is present and string-valued. -/
theorem store_metadata_string_valued
    (decision category outcome : String) (pd : Option String) (env : StoreEnv)
    (hstate : env.stateFile = .missing)
    (tid : String) (record : TraceRecord) (fsOut : ChromaFS)
    (h : storeTrace decision category outcome pd env = .done tid record fsOut) :
    objGet record.metadata "state" .null = .str "unknown" ∧
    objGet record.metadata "session_id" .null = .str "" ∧
    objGet record.metadata "feature_id" .null = .str "" ∧
    (∀ p ∈ record.metadata, ∃ s, p.2 = Json.str s) := by
  unfold storeTrace at h
  rw [hstate] at h
  split at h
  · exact absurd h (by simp)
  · exact absurd h (by simp)
  · simp only [getStateContext] at h
    split at h
    · exact absurd h (by simp)
    · simp only [storeSuccess, StoreResult.done.injEq] at h
      obtain ⟨-, hrec, -⟩ := h
      subst hrec
      refine ⟨rfl, rfl, rfl, ?_⟩
      intro p hp
      simp only [storeMetadata, List.mem_cons, List.not_mem_nil, or_false] at hp
      rcases hp with rfl | rfl | rfl | rfl | rfl | rfl | rfl | rfl <;>
        exact ⟨_, rfl⟩

/-- Witness for C10 at a concrete successful store with the state file
absent. -/
theorem store_metadata_string_valued_witness :
    objGet (storeMetadata "d" "c" "pending" none
      ⟨some "key", .missing, .missing, .missing, "T", "/p", fun _ => .ok [], []⟩
      ⟨.str "unknown", .null, .null⟩) "state" .null = .str "unknown" :=
  (store_metadata_string_valued "d" "c" "pending" none
    ⟨some "key", .missing, .missing, .missing, "T", "/p", fun _ => .ok [], []⟩
    rfl _ _ _ rfl).1
